import Mathlib

/-!
Verification of the app-relayer pipeline (crates/relayer).

Shallow embedding of the relayer's three stages:
* `EventGenerator` (src/event_generator.rs): per-pair polling, on-chain
  request submission, receipt/log correlation;
* `ProofFetcher` (src/proof_fetcher/mod.rs, src/proof_fetcher/client.rs):
  job/poll proof acquisition against the proving service;
* `EventDeliverer` (src/event_delivery.rs): destination transaction
  construction and submission.

External effects (RPC providers, wallets, HTTP, keccak, the proving
service) are modelled as explicit oracle parameters; byte strings are
`List Nat`, machine integers are `Nat` (no arithmetic overflow is
exercised by any code path modelled here).
-/

deriving instance DecidableEq for Except

/-- `config.rs`: chain configuration (name, chain id, RPC endpoint). -/
structure ChainConfig where
  name : String
  chain_id : Nat
  rpc_url : String
deriving DecidableEq, Repr

/-- `config.rs`: source→destination relay pair. -/
structure RelayPair where
  source_chain_id : Nat
  source_resolver_address : String
  dest_chain_id : Nat
  dest_dapp_address : String
deriving DecidableEq, Repr

/-- `types.rs`: positional metadata of the source log entry. -/
structure EventMeta where
  tx_hash : Option Nat
  block_number : Nat
  tx_index : Nat
  log_index : Nat
deriving DecidableEq, Repr

/-- `types.rs`: event detected by the event generator. -/
structure RelayEvent where
  source_chain : ChainConfig
  source_resolver_address : String
  destination_chain : ChainConfig
  dest_dapp_address : String
  exec_payload : List Nat
  nonce : Nat
  meta : EventMeta
deriving DecidableEq, Repr

/-- `types.rs`: proof request sent to the proof fetcher. -/
structure ProofRequest where
  event : RelayEvent
  tx_hash : Nat
  destination_chain_id : Nat
  dest_contract_address : String
deriving DecidableEq, Repr

/-- `types.rs`: delivery request sent to the event deliverer. -/
structure DeliveryRequest where
  destination_chain_id : Nat
  destination_contract_address : String
  event : RelayEvent
  proof : List Nat
deriving DecidableEq, Repr

/-! ## Base64 (the `base64` crate's STANDARD engine, as used by client.rs) -/

/-- Value of one base64 alphabet character. -/
def b64CharVal (c : Char) : Option Nat :=
  if 'A' ≤ c ∧ c ≤ 'Z' then some (c.toNat - 65)
  else if 'a' ≤ c ∧ c ≤ 'z' then some (c.toNat - 97 + 26)
  else if '0' ≤ c ∧ c ≤ '9' then some (c.toNat - 48 + 52)
  else if c = '+' then some 62
  else if c = '/' then some 63
  else none

/-- Decode base64 text four characters at a time (standard padding). -/
def base64DecodeGroups : List Char → Except String (List Nat)
  | [] => .ok []
  | a :: b :: c :: d :: rest =>
    match b64CharVal a, b64CharVal b with
    | some va, some vb =>
      if c = '=' then
        if d = '=' ∧ rest = [] then .ok [va * 4 + vb / 16]
        else .error "invalid base64 padding"
      else
        match b64CharVal c with
        | some vc =>
          if d = '=' then
            if rest = [] then .ok [va * 4 + vb / 16, (vb % 16) * 16 + vc / 4]
            else .error "invalid base64 padding"
          else
            match b64CharVal d with
            | some vd =>
              match base64DecodeGroups rest with
              | .ok tail =>
                .ok ((va * 4 + vb / 16) :: ((vb % 16) * 16 + vc / 4) ::
                     ((vc % 4) * 64 + vd) :: tail)
              | .error e => .error e
            | none => .error "invalid base64 symbol"
        | none => .error "invalid base64 symbol"
    | _, _ => .error "invalid base64 symbol"
  | _ => .error "invalid base64 length"

/-- Base64-decode a string (empty input decodes to the empty byte string). -/
def base64Decode (s : String) : Except String (List Nat) :=
  base64DecodeGroups s.data

/-! ## `proof_fetcher/client.rs`: the proving-service client -/

/-- `client.rs` `QueryProofResult`: one `log_queryProof` answer
(`proof` carries serde's default `""` when the field is absent). -/
structure QueryProofResult where
  proof : String
  status : String
deriving DecidableEq, Repr

/-- serde deserialization of a `log_queryProof` result: an absent `proof`
field yields the default empty string (`#[serde(default)]`). -/
def mkQueryProofResult (proofField : Option String) (status : String) :
    QueryProofResult :=
  { proof := proofField.getD "", status := status }

namespace ProofApiClient

/-- The readiness test of `fetch_proof`'s polling loop:
`result.status == "ready" || result.status == "complete"`. -/
def isReadyStatus (s : String) : Bool :=
  s == "ready" || s == "complete"

/-- Outcome of the polling loop, carrying the total number of
`log_queryProof` calls made. -/
inductive PollOutcome where
  | ready (proofB64 : String) (calls : Nat)
  | timeout (calls : Nat)
  | failed (e : String) (calls : Nat)
deriving DecidableEq, Repr

/-- The polling loop of `fetch_proof`: `svc n` is the proving service's
answer to the (n+1)-th `log_queryProof` call; `attempts` mirrors the
`attempts` counter (timeout once `attempts > 5` after the increment). -/
def queryLoop (svc : Nat → Except String QueryProofResult)
    (calls attempts : Nat) : PollOutcome :=
  match svc calls with
  | .error e => .failed e (calls + 1)
  | .ok r =>
    if isReadyStatus r.status then .ready r.proof (calls + 1)
    else if attempts + 1 > 5 then .timeout (calls + 1)
    else queryLoop svc (calls + 1) (attempts + 1)
termination_by 6 - attempts
decreasing_by simp_wf; omega

/-- `client.rs` `ProofApiClient::fetch_proof`: request a job id
(`log_requestProof`, modelled by `req`), poll `log_queryProof` until the
status is ready, base64-decode the proof. Returns the result together
with the number of `log_queryProof` calls performed. -/
def fetch_proof (req : Except String Int)
    (svc : Nat → Except String QueryProofResult) :
    Except String (List Nat) × Nat :=
  match req with
  | .error e => (.error e, 0)
  | .ok _jobId =>
    match queryLoop svc 0 0 with
    | .ready p calls => (base64Decode p, calls)
    | .timeout calls => (.error "Timeout waiting for proof", calls)
    | .failed e calls => (.error e, calls)

end ProofApiClient

/-! ## `proof_fetcher/mod.rs`: the proof-fetcher stage -/

/-- The four positional arguments the fetcher passes to
`ProofApiClient::fetch_proof` (and on to `log_requestProof`). -/
structure ClientArgs where
  chain_id : Nat
  block_number : Nat
  tx_index : Nat
  log_index : Nat
deriving DecidableEq, Repr

namespace ProofFetcher

/-- `mod.rs` `ProofFetcher::start`/`fetch_proof`, per received event:
drop the event when `meta.tx_hash` is absent; otherwise build the
`ProofRequest`, call the proving client (abstracted as `client`) with the
event's source chain id and `EventMeta` coordinates, and on success build
the `DeliveryRequest`. Returns the `ProofRequest`, the arguments passed
to the client, and the client-result-dependent `DeliveryRequest`. -/
def processEvent (client : ClientArgs → Except String (List Nat))
    (event : RelayEvent) :
    Option (ProofRequest × ClientArgs × Except String DeliveryRequest) :=
  match event.meta.tx_hash with
  | none => none
  | some h =>
    let proof_request : ProofRequest :=
      { event := event
        tx_hash := h
        destination_chain_id := event.destination_chain.chain_id
        dest_contract_address := event.dest_dapp_address }
    let args : ClientArgs :=
      { chain_id := event.source_chain.chain_id
        block_number := event.meta.block_number
        tx_index := event.meta.tx_index
        log_index := event.meta.log_index }
    some (proof_request, args,
      (client args).map (fun proof =>
        { destination_chain_id := proof_request.destination_chain_id
          destination_contract_address := proof_request.dest_contract_address
          event := event
          proof := proof }))

end ProofFetcher

/-! ## `event_delivery.rs`: the event-deliverer stage -/

/-- A transaction as submitted to the destination chain: the chain id the
wallet signs under, the parsed recipient address, and the raw data. -/
structure SentTx where
  chain_id : Nat
  toAddr : Nat
  data : List Nat
deriving DecidableEq, Repr

/-- How one `deliver_event` call ends. -/
inductive DeliverStatus where
  | panicked
  | failed (msg : String)
  | delivered
deriving DecidableEq, Repr

/-- Result of `deliver_event`: final status plus the transaction that was
submitted to the destination chain, if the send was reached and accepted. -/
structure DeliverOutcome where
  status : DeliverStatus
  submitted : Option SentTx
deriving DecidableEq, Repr

/-- External effects consumed by `deliver_event`. -/
structure DeliveryEnv where
  providerOk : Bool
  parseWallet : String → Bool
  parseAddr : String → Option Nat
  sendTx : SentTx → Except String Nat
  confirmTx : Nat → Except String (Option Unit)

namespace EventDeliverer

/-- `event_delivery.rs` `EventDeliverer::deliver_event`: connect a
provider for the destination chain, build the wallet with the destination
chain id, slice the first four payload bytes as the function selector
(a Rust slice `[0..4]`, which panics when the payload is shorter), build
`tx_data = exec_payload ++ proof`, parse the destination dapp address,
submit, and await one confirmation. -/
def deliver_event (env : DeliveryEnv) (delivery : DeliveryRequest)
    (private_key : String) : DeliverOutcome :=
  match env.providerOk with
  | false => ⟨.failed "Failed to create provider", none⟩
  | true =>
    match env.parseWallet private_key with
    | false => ⟨.failed "Failed to create wallet", none⟩
    | true =>
      if delivery.event.exec_payload.length < 4 then ⟨.panicked, none⟩
      else
        let tx_data := delivery.event.exec_payload ++ delivery.proof
        match env.parseAddr delivery.event.dest_dapp_address with
        | none => ⟨.failed "Invalid address", none⟩
        | some addr =>
          let sent : SentTx :=
            ⟨delivery.event.destination_chain.chain_id, addr, tx_data⟩
          match env.sendTx sent with
          | .error e => ⟨.failed e, none⟩
          | .ok h =>
            match env.confirmTx h with
            | .error e => ⟨.failed e, some sent⟩
            | .ok none => ⟨.failed "Transaction receipt not found", some sent⟩
            | .ok (some _) => ⟨.delivered, some sent⟩

end EventDeliverer

/-! ## `event_generator.rs`: the event-generator stage -/

/-- A receipt log entry: contract address (parsed, as a number), topic
list (each topic a 32-byte word) and on-chain log index (optional in the
RPC type). -/
structure Log where
  address : Nat
  topics : List (List Nat)
  log_index : Option Nat
deriving DecidableEq, Repr

/-- A transaction receipt: optional block number, transaction index, and
the ordered list of logs. -/
structure Receipt where
  block_number : Option Nat
  transaction_index : Nat
  logs : List Log
deriving DecidableEq, Repr

/-- The canonical signature string whose keccak256 hash identifies the
`CrossChainExecRequested` event. -/
def crossChainExecRequestedSig : String :=
  "CrossChainExecRequested(uint32,bytes,uint256)"

/-- The log predicate of `extract_event_details`'s `find`: the log's
address equals the parsed resolver address and `topics[0]` equals the
keccak256 hash of the event signature. `keccak` abstracts the keccak256
library function. -/
def logMatches (keccak : String → List Nat) (resolverAddr : Nat)
    (log : Log) : Bool :=
  log.address == resolverAddr &&
    log.topics.head? == some (keccak crossChainExecRequestedSig)

namespace EventGenerator

/-- `event_generator.rs` `EventGenerator::extract_event_details`: fetch
the receipt of the confirmed `requestRemoteExecution` transaction
(`receiptResult` models provider creation + `get_transaction_receipt`),
find the log whose address is the pair's resolver
(`Address::from_str(..).unwrap_or_default()`, hence `getD 0`) and whose
first topic is the `CrossChainExecRequested` signature hash, and build
the `RelayEvent`; a missing receipt, matching log, block number or log
index is an error. -/
def extract_event_details (keccak : String → List Nat)
    (parseAddr : String → Option Nat)
    (receiptResult : Except String (Option Receipt)) (txh : Nat)
    (source_chain destination_chain : ChainConfig)
    (exec_payload : List Nat) (nonce : Nat) (pair : RelayPair) :
    Except String RelayEvent :=
  match receiptResult with
  | .error e => .error e
  | .ok none => .error "Transaction receipt not found"
  | .ok (some receipt) =>
    match receipt.logs.find?
        (logMatches keccak ((parseAddr pair.source_resolver_address).getD 0)) with
    | none => .error "CrossChainExecRequested event not found in transaction"
    | some cross_chain_event =>
      match receipt.block_number with
      | none => .error "block_number not found from receipt"
      | some bn =>
        match cross_chain_event.log_index with
        | none => .error "log_index not found from CrossChainExecRequested event"
        | some li =>
          .ok { source_chain := source_chain
                source_resolver_address := pair.source_resolver_address
                destination_chain := destination_chain
                dest_dapp_address := pair.dest_dapp_address
                exec_payload := exec_payload
                nonce := nonce
                meta := { tx_hash := some txh
                          block_number := bn
                          tx_index := receipt.transaction_index
                          log_index := li } }

/-- External effects consumed by one per-pair check of the generator
(the provider/wallet/address steps are repeated inside
`request_remote_execution` on the same inputs, so share the same flags). -/
structure GenEnv where
  providerOk : Bool
  walletOk : Bool
  parseAddr : String → Option Nat
  checker : Except String (Bool × List Nat × Nat)
  sendTx : Except String Nat
  confirmTx : Except String (Option Unit)
  receiptOf : Nat → Except String (Option Receipt)
  keccak : String → List Nat
  channelSend : RelayEvent → Bool

/-- Externally visible actions of one per-pair check, in order: a
`requestRemoteExecution` transaction accepted by the chain, and a
`RelayEvent` produced (sent towards the proof fetcher). -/
inductive GenAction where
  | submitTx (txHash : Nat)
  | emitEvent (ev : RelayEvent)
deriving DecidableEq, Repr

/-- `event_generator.rs` `EventGenerator::request_remote_execution`:
provider, wallet (source chain id), resolver address parse, submit the
`requestRemoteExecution` transaction, await one confirmation; returns the
transaction hash. Second component: the submissions performed. -/
def request_remote_execution (env : GenEnv) (pair : RelayPair) :
    Except String Nat × List GenAction :=
  match env.providerOk with
  | false => (.error "Failed to create provider", [])
  | true =>
    match env.walletOk with
    | false => (.error "Failed to create wallet", [])
    | true =>
      match env.parseAddr pair.source_resolver_address with
      | none => (.error "Invalid resolver address", [])
      | some _ =>
        match env.sendTx with
        | .error e => (.error e, [])
        | .ok h =>
          match env.confirmTx with
          | .error e => (.error e, [.submitTx h])
          | .ok none => (.error "Transaction receipt not found", [.submitTx h])
          | .ok (some _) => (.ok h, [.submitTx h])

/-- `event_generator.rs` `EventGenerator::check_cross_chain_events`:
provider, wallet, resolver address, `crossChainChecker` call; when
`canExec` holds, submit `requestRemoteExecution`, extract the
`RelayEvent` from the confirmed receipt and send it to the proof fetcher
(a failed channel send is only logged). Returns the per-pair result and
the chronological list of externally visible actions. -/
def check_cross_chain_events (env : GenEnv) (source_chain dest_chain : ChainConfig)
    (pair : RelayPair) : Except String Unit × List GenAction :=
  match env.providerOk with
  | false => (.error "Failed to create provider", [])
  | true =>
    match env.walletOk with
    | false => (.error "Failed to create wallet", [])
    | true =>
      match env.parseAddr pair.source_resolver_address with
      | none => (.error "Invalid resolver address", [])
      | some _ =>
        match env.checker with
        | .error e => (.error e, [])
        | .ok (can_exec, exec_payload, nonce) =>
          if can_exec then
            match request_remote_execution env pair with
            | (.error e, acts) => (.error e, acts)
            | (.ok txh, acts) =>
              match extract_event_details env.keccak env.parseAddr
                  (env.receiptOf txh) txh source_chain dest_chain
                  exec_payload nonce pair with
              | .error e => (.error e, acts)
              | .ok ev =>
                let _sendResult := env.channelSend ev
                (.ok (), acts ++ [.emitEvent ev])
          else
            (.ok (), [])

/-- `event_generator.rs` `EventGenerator::check_all_chains`: walk the
relay pairs in order; a missing source or destination chain id in the
chain map is propagated with `?` (aborting the walk), while an error from
`check_cross_chain_events` is only logged. `lookup` models
`self.chains.get`; `check` models the per-pair check. Second component:
the pairs for which `check_cross_chain_events` was invoked, in order. -/
def check_all_chains (lookup : Nat → Option ChainConfig)
    (check : ChainConfig → ChainConfig → RelayPair → Except String Unit) :
    List RelayPair → Except String Unit × List RelayPair
  | [] => (.ok (), [])
  | pair :: rest =>
    match lookup pair.source_chain_id with
    | none => (.error "Source chain not found in config", [])
    | some source_chain =>
      match lookup pair.dest_chain_id with
      | none => (.error "Destination chain not found in config", [])
      | some dest_chain =>
        let _perPairResult := check source_chain dest_chain pair
        let (r, checked) := check_all_chains lookup check rest
        (r, pair :: checked)

/-- What one iteration of `EventGenerator::start`'s `loop` decides. -/
inductive LoopControl where
  | continueLoop
  | breakLoop (r : Except String Unit)
deriving DecidableEq, Repr

/-- The body of `EventGenerator::start`'s `loop`: tick, run
`check_all_chains`, log any error (`if let Err(e) = ... { error!(..) }`)
and continue; the loop has no break or return path. -/
def generatorLoopBody (tickResult : Except String Unit) : LoopControl :=
  match tickResult with
  | .ok _ => .continueLoop
  | .error _ => .continueLoop

end EventGenerator

/-! ## Spec-modelled delivery strategies (for the configuration claim) -/

/-- Modelled from the spec: the two delivery strategies of §4.3
("Fixed-function" and "Payload-relay"); the source `event_delivery.rs`
contains no strategy type or configuration switch. -/
inductive DeliveryStrategy where
  | fixedFunction
  | payloadRelay
deriving DecidableEq, Repr

/-- Modelled from the spec: the transaction data each §4.3 strategy
builds — fixed-function ABI-encodes a call to a known method with the
proof as its argument (`abiAccept`), payload-relay concatenates the
execution payload with the proof bytes. -/
def specBuildTxData (abiAccept : List Nat → List Nat) :
    DeliveryStrategy → List Nat → List Nat → List Nat
  | .fixedFunction, _payload, proof => abiAccept proof
  | .payloadRelay, payload, proof => payload ++ proof

/-- The strategy-selection claim as stated: some configuration-indexed
selection (the deliverer's configuration is its private-key string)
chooses between both supported strategies, and every submitted
transaction's data is built by the selected strategy. -/
def strategySelectedByConfig : Prop :=
  ∃ (sel : String → DeliveryStrategy) (abiAccept : List Nat → List Nat),
    (∃ k, sel k = DeliveryStrategy.fixedFunction) ∧
    (∃ k, sel k = DeliveryStrategy.payloadRelay) ∧
    ∀ (env : DeliveryEnv) (d : DeliveryRequest) (pk : String) (sent : SentTx),
      (EventDeliverer.deliver_event env d pk).submitted = some sent →
      sent.data = specBuildTxData abiAccept (sel pk) d.event.exec_payload d.proof

/-! ## Concrete sample inputs -/

/-- A sample source chain (id 10). -/
def chainA : ChainConfig :=
  { name := "chainA", chain_id := 10, rpc_url := "http://a" }

/-- A sample destination chain (id 20). -/
def chainB : ChainConfig :=
  { name := "chainB", chain_id := 20, rpc_url := "http://b" }

/-- A sample relay pair from `chainA` to `chainB`. -/
def pairAB : RelayPair :=
  { source_chain_id := 10
    source_resolver_address := "0xresolver"
    dest_chain_id := 20
    dest_dapp_address := "0xdapp" }

/-- Sample event coordinates. -/
def sampleMeta : EventMeta :=
  { tx_hash := some 42, block_number := 100, tx_index := 2, log_index := 1 }

/-- A sample relay event with a four-byte payload. -/
def sampleEvent : RelayEvent :=
  { source_chain := chainA
    source_resolver_address := "0xresolver"
    destination_chain := chainB
    dest_dapp_address := "0xdapp"
    exec_payload := [1, 2, 3, 4]
    nonce := 7
    meta := sampleMeta }

/-- A sample delivery request for `sampleEvent` with proof `[9]`. -/
def sampleDelivery : DeliveryRequest :=
  { destination_chain_id := 20
    destination_contract_address := "0xdapp"
    event := sampleEvent
    proof := [9] }

/-- A delivery environment in which every external step succeeds. -/
def sampleDeliveryEnv : DeliveryEnv :=
  { providerOk := true
    parseWallet := fun _ => true
    parseAddr := fun _ => some 3
    sendTx := fun _ => .ok 0
    confirmTx := fun _ => .ok (some ()) }

/-- `sampleEvent` with an empty execution payload. -/
def shortPayloadEvent : RelayEvent :=
  { sampleEvent with exec_payload := [] }

/-- A delivery request whose event payload is shorter than four bytes. -/
def shortPayloadDelivery : DeliveryRequest :=
  { sampleDelivery with event := shortPayloadEvent }

/-! ## Claim theorems -/

/-- Any transaction `deliver_event` submits carries the concatenated
payload-and-proof data, the parsed destination dapp address, and the
destination chain id. -/
theorem deliver_event_submitted_spec (env : DeliveryEnv)
    (d : DeliveryRequest) (pk : String) (sent : SentTx)
    (h : (EventDeliverer.deliver_event env d pk).submitted = some sent) :
    sent.data = d.event.exec_payload ++ d.proof ∧
    env.parseAddr d.event.dest_dapp_address = some sent.toAddr ∧
    sent.chain_id = d.event.destination_chain.chain_id := by
  unfold EventDeliverer.deliver_event at h
  split at h
  · simp at h
  · split at h
    · simp at h
    · split at h
      · simp at h
      · rename_i hlen
        split at h
        · simp at h
        · rename_i addr haddr
          dsimp only at h
          split at h
          · simp at h
          · split at h <;>
              · simp only [Option.some.injEq] at h
                subst h
                exact ⟨rfl, haddr, rfl⟩

/-- C1: every transaction `deliver_event` submits is built by the
payload-relay strategy: its data is the event's `exec_payload` followed
by the proof bytes, its recipient is the parse of the event's destination
dapp address, and it is signed under the destination chain's chain id. -/
theorem deliver_event_builds_payload_relay_tx (env : DeliveryEnv)
    (d : DeliveryRequest) (pk : String) (sent : SentTx)
    (h : (EventDeliverer.deliver_event env d pk).submitted = some sent) :
    sent.data = d.event.exec_payload ++ d.proof ∧
    env.parseAddr d.event.dest_dapp_address = some sent.toAddr ∧
    sent.chain_id = d.event.destination_chain.chain_id :=
  deliver_event_submitted_spec env d pk sent h

/-- C1 witness: the payload-relay shape at the concrete sample input. -/
theorem deliver_event_builds_payload_relay_tx_witness :
    ([1, 2, 3, 4, 9] : List Nat) =
      sampleDelivery.event.exec_payload ++ sampleDelivery.proof ∧
    sampleDeliveryEnv.parseAddr sampleDelivery.event.dest_dapp_address =
      some 3 ∧
    (20 : Nat) = sampleDelivery.event.destination_chain.chain_id :=
  deliver_event_builds_payload_relay_tx sampleDeliveryEnv sampleDelivery
    "key" ⟨20, 3, [1, 2, 3, 4, 9]⟩ (by decide)

/-- C4: the proof fetcher's proving-service call uses exactly the
event's source chain id and `EventMeta` block number, transaction index
and log index, and the `DeliveryRequest` it builds carries exactly the
event's destination chain id and destination dapp address. -/
theorem proof_fetcher_round_trip
    (client : ClientArgs → Except String (List Nat)) (event : RelayEvent)
    (h : Nat) (hh : event.meta.tx_hash = some h) :
    ∃ pr args res,
      ProofFetcher.processEvent client event = some (pr, args, res) ∧
      args.chain_id = event.source_chain.chain_id ∧
      args.block_number = event.meta.block_number ∧
      args.tx_index = event.meta.tx_index ∧
      args.log_index = event.meta.log_index ∧
      pr.tx_hash = h ∧
      pr.destination_chain_id = event.destination_chain.chain_id ∧
      pr.dest_contract_address = event.dest_dapp_address ∧
      ∀ dr, res = .ok dr →
        dr.destination_chain_id = event.destination_chain.chain_id ∧
        dr.destination_contract_address = event.dest_dapp_address ∧
        dr.event = event := by
  unfold ProofFetcher.processEvent
  rw [hh]
  refine ⟨_, _, _, rfl, rfl, rfl, rfl, rfl, rfl, rfl, rfl, ?_⟩
  intro dr hdr
  cases hc : client { chain_id := event.source_chain.chain_id
                      block_number := event.meta.block_number
                      tx_index := event.meta.tx_index
                      log_index := event.meta.log_index } with
  | error e => rw [hc] at hdr; simp [Except.map] at hdr
  | ok p =>
    rw [hc] at hdr
    simp only [Except.map, Except.ok.injEq] at hdr
    subst hdr
    exact ⟨rfl, rfl, rfl⟩

/-- C4 witness: the round-trip fields at the concrete sample event. -/
theorem proof_fetcher_round_trip_witness :
    sampleEvent.meta.tx_hash = some 42 ∧
    ∃ pr args res,
      ProofFetcher.processEvent (fun _ => .ok [0]) sampleEvent =
        some (pr, args, res) ∧
      args.chain_id = sampleEvent.source_chain.chain_id ∧
      args.block_number = sampleEvent.meta.block_number ∧
      args.tx_index = sampleEvent.meta.tx_index ∧
      args.log_index = sampleEvent.meta.log_index ∧
      pr.tx_hash = 42 ∧
      pr.destination_chain_id = sampleEvent.destination_chain.chain_id ∧
      pr.dest_contract_address = sampleEvent.dest_dapp_address ∧
      ∀ dr, res = .ok dr →
        dr.destination_chain_id = sampleEvent.destination_chain.chain_id ∧
        dr.destination_contract_address = sampleEvent.dest_dapp_address ∧
        dr.event = sampleEvent :=
  ⟨rfl, proof_fetcher_round_trip (fun _ => .ok [0]) sampleEvent 42 rfl⟩

/-- C6 (code bug): at a delivery request whose execution payload is
shorter than four bytes, `deliver_event` panics on the slice
`exec_payload[0..4]` instead of returning an error value, even though
every external step succeeds. -/
theorem deliver_event_short_payload_panics :
    EventDeliverer.deliver_event sampleDeliveryEnv shortPayloadDelivery
      "key" = ⟨DeliverStatus.panicked, none⟩ := by
  decide

/-- One not-ready poll within the attempt budget recurses with the next
call index and an incremented attempt counter. -/
theorem queryLoop_not_ready_step (svc : Nat → Except String QueryProofResult)
    (calls attempts : Nat) (r : QueryProofResult) (hr : svc calls = .ok r)
    (hnr : ProofApiClient.isReadyStatus r.status = false)
    (hle : attempts + 1 ≤ 5) :
    ProofApiClient.queryLoop svc calls attempts =
      ProofApiClient.queryLoop svc (calls + 1) (attempts + 1) := by
  rw [ProofApiClient.queryLoop, hr]
  simp only [hnr, Bool.false_eq_true, if_false]
  rw [if_neg (by omega)]

/-- One not-ready poll past the attempt budget times out. -/
theorem queryLoop_not_ready_timeout (svc : Nat → Except String QueryProofResult)
    (calls attempts : Nat) (r : QueryProofResult) (hr : svc calls = .ok r)
    (hnr : ProofApiClient.isReadyStatus r.status = false)
    (hgt : attempts + 1 > 5) :
    ProofApiClient.queryLoop svc calls attempts =
      ProofApiClient.PollOutcome.timeout (calls + 1) := by
  rw [ProofApiClient.queryLoop, hr]
  simp only [hnr, Bool.false_eq_true, if_false]
  rw [if_pos hgt]

/-- After `k` not-ready polls within budget, a ready poll returns its
proof together with the total call count. -/
theorem queryLoop_pending_then_ready (svc : Nat → Except String QueryProofResult) :
    ∀ (k calls attempts : Nat),
      (∀ i, i < k → ∃ r, svc (calls + i) = .ok r ∧
        ProofApiClient.isReadyStatus r.status = false) →
      attempts + k ≤ 5 →
      ∀ rP, svc (calls + k) = .ok rP →
        ProofApiClient.isReadyStatus rP.status = true →
        ProofApiClient.queryLoop svc calls attempts =
          ProofApiClient.PollOutcome.ready rP.proof (calls + k + 1) := by
  intro k
  induction k with
  | zero =>
    intro calls attempts _hpend _hle rP hP hready
    rw [Nat.add_zero] at hP
    rw [ProofApiClient.queryLoop, hP]
    simp [hready]
  | succ k ih =>
    intro calls attempts hpend hle rP hP hready
    obtain ⟨r0, h0, hnr0⟩ := hpend 0 (Nat.succ_pos k)
    rw [Nat.add_zero] at h0
    rw [queryLoop_not_ready_step svc calls attempts r0 h0 hnr0 (by omega)]
    have hshift : ∀ i, i < k → ∃ r, svc (calls + 1 + i) = .ok r ∧
        ProofApiClient.isReadyStatus r.status = false := by
      intro i hi
      obtain ⟨r, hr, hnr⟩ := hpend (i + 1) (by omega)
      exact ⟨r, by rw [show calls + 1 + i = calls + (i + 1) by omega]; exact hr, hnr⟩
    have hP' : svc (calls + 1 + k) = .ok rP := by
      rw [show calls + 1 + k = calls + (k + 1) by omega]; exact hP
    rw [ih (calls + 1) (attempts + 1) hshift (by omega) rP hP' hready]
    congr 1
    omega

/-- C2: against a proving service that is pending for the first `N`
polls and then ready with base64 proof `P`, `fetch_proof` returns the
base64-decoding of `P` after exactly `N + 1` `log_queryProof` calls when
`N` is within the retry ceiling of 5, and a timeout error (after the 6
budgeted calls) when `N` exceeds it. -/
theorem fetch_proof_poll_protocol (N : Nat) (P : String) (jobId : Int)
    (svc : Nat → Except String QueryProofResult)
    (hpend : ∀ i, i < N → ∃ q, svc i = .ok ⟨q, "pending"⟩)
    (hready : svc N = .ok ⟨P, "ready"⟩) :
    (N ≤ 5 →
      ProofApiClient.fetch_proof (.ok jobId) svc = (base64Decode P, N + 1)) ∧
    (5 < N →
      ProofApiClient.fetch_proof (.ok jobId) svc =
        (.error "Timeout waiting for proof", 6)) := by
  constructor
  · intro hN
    unfold ProofApiClient.fetch_proof
    have hloop := queryLoop_pending_then_ready svc N 0 0
      (fun i hi => by
        obtain ⟨q, hq⟩ := hpend i hi
        exact ⟨⟨q, "pending"⟩, by rw [Nat.zero_add]; exact hq, rfl⟩)
      (by omega) ⟨P, "ready"⟩ (by rw [Nat.zero_add]; exact hready) rfl
    rw [Nat.zero_add] at hloop
    rw [hloop]
  · intro hN
    unfold ProofApiClient.fetch_proof
    obtain ⟨q0, h0⟩ := hpend 0 (by omega)
    obtain ⟨q1, h1⟩ := hpend 1 (by omega)
    obtain ⟨q2, h2⟩ := hpend 2 (by omega)
    obtain ⟨q3, h3⟩ := hpend 3 (by omega)
    obtain ⟨q4, h4⟩ := hpend 4 (by omega)
    obtain ⟨q5, h5⟩ := hpend 5 (by omega)
    rw [queryLoop_not_ready_step svc 0 0 _ h0 rfl (by omega),
        queryLoop_not_ready_step svc 1 1 _ h1 rfl (by omega),
        queryLoop_not_ready_step svc 2 2 _ h2 rfl (by omega),
        queryLoop_not_ready_step svc 3 3 _ h3 rfl (by omega),
        queryLoop_not_ready_step svc 4 4 _ h4 rfl (by omega),
        queryLoop_not_ready_timeout svc 5 5 _ h5 rfl (by omega)]

/-- A proving-service stub: pending on the first poll, ready with proof
"AAAA" afterwards. -/
def svcOnePending : Nat → Except String QueryProofResult := fun i =>
  if i = 0 then .ok ⟨"", "pending"⟩ else .ok ⟨"AAAA", "ready"⟩

/-- C2 witness: one pending poll, then the proof is returned after two
`log_queryProof` calls. -/
theorem fetch_proof_poll_protocol_witness :
    ProofApiClient.fetch_proof (.ok 1) svcOnePending =
      (base64Decode "AAAA", 2) :=
  (fetch_proof_poll_protocol 1 "AAAA" 1 svcOnePending
    (by
      intro i hi
      obtain rfl : i = 0 := by omega
      exact ⟨"", rfl⟩)
    rfl).1 (by omega)

/-- C10: the polling loop counts a result as ready exactly when its
status is "ready" or "complete"; any other status (with attempts left)
triggers a retry; and a ready answer with the `proof` field absent from
the JSON yields the empty byte string, not an error. -/
theorem fetch_proof_status_and_default_proof :
    (∀ s, ProofApiClient.isReadyStatus s = true ↔ (s = "ready" ∨ s = "complete")) ∧
    (∀ (svc : Nat → Except String QueryProofResult) (calls attempts : Nat)
        (r : QueryProofResult), svc calls = .ok r →
      ProofApiClient.isReadyStatus r.status = false → attempts + 1 ≤ 5 →
      ProofApiClient.queryLoop svc calls attempts =
        ProofApiClient.queryLoop svc (calls + 1) (attempts + 1)) ∧
    (∀ (jobId : Int) (svc : Nat → Except String QueryProofResult),
      svc 0 = .ok (mkQueryProofResult none "ready") →
      ProofApiClient.fetch_proof (.ok jobId) svc = (.ok [], 1)) := by
  refine ⟨?_, queryLoop_not_ready_step, ?_⟩
  · intro s
    simp [ProofApiClient.isReadyStatus]
  · intro jobId svc h0
    unfold ProofApiClient.fetch_proof
    rw [ProofApiClient.queryLoop, h0]
    simp [mkQueryProofResult, ProofApiClient.isReadyStatus, base64Decode,
      base64DecodeGroups]

/-- C10 witness: a first-poll "ready" answer with no proof field gives
the empty proof after one call. -/
theorem fetch_proof_status_and_default_proof_witness :
    ProofApiClient.fetch_proof (.ok 1)
      (fun _ => .ok (mkQueryProofResult none "ready")) = (.ok [], 1) :=
  fetch_proof_status_and_default_proof.2.2 1
    (fun _ => .ok (mkQueryProofResult none "ready")) rfl

/-- `find?` returns the unique element satisfying the predicate. -/
theorem find?_eq_some_of_unique {α : Type} (p : α → Bool) :
    ∀ (xs : List α) (l : α), l ∈ xs → p l = true →
      (∀ l2 ∈ xs, p l2 = true → l2 = l) → xs.find? p = some l := by
  intro xs
  induction xs with
  | nil => intro l hl _ _; cases hl
  | cons x rest ih =>
    intro l hl hp huniq
    by_cases hx : p x = true
    · have hxl : x = l := huniq x (List.mem_cons_self x rest) hx
      subst hxl
      simp [List.find?, hx]
    · have hxf : p x = false := by
        cases hpx : p x with
        | false => rfl
        | true => exact absurd hpx hx
      have hlx : l ≠ x := fun he => hx (he ▸ hp)
      have hl' : l ∈ rest := by
        cases hl with
        | head => exact absurd rfl hlx
        | tail _ h => exact h
      have hrec := ih l hl' hp
        (fun l2 h2 hp2 => huniq l2 (List.mem_cons_of_mem x h2) hp2)
      simp [List.find?, hxf, hrec]

/-- C3: on a receipt containing a unique log whose address is the pair's
resolver and whose first topic is the `CrossChainExecRequested` signature
hash, `extract_event_details` takes `log_index` (and the other `EventMeta`
coordinates) from that matching log; with no matching log it returns an
error and produces no `RelayEvent`. -/
theorem extract_event_details_matching_log (keccak : String → List Nat)
    (parseAddr : String → Option Nat) (txh : Nat) (sc dc : ChainConfig)
    (payload : List Nat) (nonce : Nat) (pair : RelayPair) (receipt : Receipt)
    (ra : Nat) (hra : parseAddr pair.source_resolver_address = some ra) :
    ((∀ l ∈ receipt.logs, logMatches keccak ra l = false) →
      EventGenerator.extract_event_details keccak parseAddr (.ok (some receipt))
          txh sc dc payload nonce pair =
        .error "CrossChainExecRequested event not found in transaction") ∧
    (∀ l bn li, l ∈ receipt.logs → logMatches keccak ra l = true →
      (∀ l2 ∈ receipt.logs, logMatches keccak ra l2 = true → l2 = l) →
      receipt.block_number = some bn → l.log_index = some li →
      ∃ ev, EventGenerator.extract_event_details keccak parseAddr
          (.ok (some receipt)) txh sc dc payload nonce pair = .ok ev ∧
        ev.meta.log_index = li ∧ ev.meta.block_number = bn ∧
        ev.meta.tx_index = receipt.transaction_index ∧
        ev.meta.tx_hash = some txh) := by
  have hgd : (parseAddr pair.source_resolver_address).getD 0 = ra := by
    rw [hra]; rfl
  constructor
  · intro hnone
    simp only [EventGenerator.extract_event_details]
    rw [hgd]
    rw [List.find?_eq_none.mpr (fun x hx => by simp [hnone x hx])]
  · intro l bn li hmem hmatch huniq hbn hli
    simp only [EventGenerator.extract_event_details]
    rw [hgd]
    rw [find?_eq_some_of_unique (logMatches keccak ra) receipt.logs l hmem
      hmatch huniq]
    rw [hbn]
    dsimp only
    rw [hli]
    exact ⟨_, rfl, rfl, rfl, rfl, rfl⟩

/-- A log that matches `logMatches (fun _ => [7]) 3`. -/
def matchingLog : Log := { address := 3, topics := [[7]], log_index := some 1 }

/-- A log from another contract, at another log index. -/
def otherLog : Log := { address := 99, topics := [[8]], log_index := some 0 }

/-- A receipt holding a non-matching and a matching log. -/
def sampleReceipt : Receipt :=
  { block_number := some 100, transaction_index := 2,
    logs := [otherLog, matchingLog] }

/-- C3 witness: among two logs, the matching one's log index (1, not 0)
is taken at the concrete receipt. -/
theorem extract_event_details_matching_log_witness :
    ∃ ev, EventGenerator.extract_event_details (fun _ => [7])
        (fun _ => some 3) (.ok (some sampleReceipt)) 42 chainA chainB
        [1, 2, 3, 4] 7 pairAB = .ok ev ∧
      ev.meta.log_index = 1 ∧ ev.meta.block_number = 100 ∧
      ev.meta.tx_index = sampleReceipt.transaction_index ∧
      ev.meta.tx_hash = some 42 :=
  (extract_event_details_matching_log (fun _ => [7]) (fun _ => some 3) 42
      chainA chainB [1, 2, 3, 4] 7 pairAB sampleReceipt 3 rfl).2
    matchingLog 100 1 (by decide) (by decide) (by decide) rfl rfl

/-- Whether a generator action is a `requestRemoteExecution` submission. -/
def isSubmitAction : EventGenerator.GenAction → Bool
  | .submitTx _ => true
  | .emitEvent _ => false

/-- Number of `requestRemoteExecution` submissions in an action list. -/
def countSubmits (acts : List EventGenerator.GenAction) : Nat :=
  (acts.filter isSubmitAction).length

/-- Full case analysis of `request_remote_execution`: it fails before
submitting, fails after submitting, or succeeds having submitted exactly
its returned hash. -/
theorem request_remote_execution_cases (env : EventGenerator.GenEnv)
    (pair : RelayPair) :
    (∃ e, EventGenerator.request_remote_execution env pair = (.error e, [])) ∨
    (∃ e h, EventGenerator.request_remote_execution env pair =
      (.error e, [EventGenerator.GenAction.submitTx h])) ∨
    (∃ h, EventGenerator.request_remote_execution env pair =
      (.ok h, [EventGenerator.GenAction.submitTx h])) := by
  obtain ⟨po, wo, pa, ck, st, ct, ro, kk, cs⟩ := env
  cases po with
  | false => exact Or.inl ⟨_, rfl⟩
  | true =>
    cases wo with
    | false => exact Or.inl ⟨_, rfl⟩
    | true =>
      rcases hpa : pa pair.source_resolver_address with _ | a
      · unfold EventGenerator.request_remote_execution
        dsimp only
        rw [hpa]
        exact Or.inl ⟨_, rfl⟩
      · unfold EventGenerator.request_remote_execution
        dsimp only
        rw [hpa]
        cases st with
        | error e => exact Or.inl ⟨e, rfl⟩
        | ok h =>
          cases ct with
          | error e => exact Or.inr (Or.inl ⟨e, h, rfl⟩)
          | ok o =>
            cases o with
            | none => exact Or.inr (Or.inl ⟨_, h, rfl⟩)
            | some u => exact Or.inr (Or.inr ⟨h, rfl⟩)

/-- `request_remote_execution` submits at most one transaction. -/
theorem request_remote_execution_submits_at_most_one
    (env : EventGenerator.GenEnv) (pair : RelayPair) :
    (EventGenerator.request_remote_execution env pair).2 = [] ∨
    ∃ h, (EventGenerator.request_remote_execution env pair).2 =
      [EventGenerator.GenAction.submitTx h] := by
  rcases request_remote_execution_cases env pair with
      ⟨e, hr⟩ | ⟨e, h, hr⟩ | ⟨h, hr⟩ <;> rw [hr]
  · exact Or.inl rfl
  · exact Or.inr ⟨h, rfl⟩
  · exact Or.inr ⟨h, rfl⟩

/-- When provider, wallet and address parsing succeed and the chain
accepts the transaction, `request_remote_execution` submits it. -/
theorem request_remote_execution_send_ok_submits
    (env : EventGenerator.GenEnv) (pair : RelayPair) (h : Nat)
    (hP : env.providerOk = true) (hW : env.walletOk = true)
    (hA : (env.parseAddr pair.source_resolver_address).isSome = true)
    (hS : env.sendTx = .ok h) :
    (EventGenerator.request_remote_execution env pair).2 =
      [EventGenerator.GenAction.submitTx h] := by
  obtain ⟨po, wo, pa, ck, st, ct, ro, kk, cs⟩ := env
  dsimp only at hP hW hA hS
  subst hP
  subst hW
  subst hS
  obtain ⟨a, ha⟩ := Option.isSome_iff_exists.mp hA
  unfold EventGenerator.request_remote_execution
  dsimp only
  rw [ha]
  cases ct with
  | error e => rfl
  | ok o =>
    cases o with
    | none => rfl
    | some u => rfl

/-- The trace of one per-pair check is empty, a lone submission, or a
submission followed by the emitted event. -/
theorem check_cross_chain_events_trace_shape (env : EventGenerator.GenEnv)
    (sc dc : ChainConfig) (pair : RelayPair) :
    (EventGenerator.check_cross_chain_events env sc dc pair).2 = [] ∨
    (∃ h, (EventGenerator.check_cross_chain_events env sc dc pair).2 =
      [EventGenerator.GenAction.submitTx h]) ∨
    (∃ h ev, (EventGenerator.check_cross_chain_events env sc dc pair).2 =
      [EventGenerator.GenAction.submitTx h,
       EventGenerator.GenAction.emitEvent ev]) := by
  obtain ⟨po, wo, pa, ck, st, ct, ro, kk, cs⟩ := env
  cases po with
  | false => exact Or.inl rfl
  | true =>
    cases wo with
    | false => exact Or.inl rfl
    | true =>
      rcases hpa : pa pair.source_resolver_address with _ | a
      · unfold EventGenerator.check_cross_chain_events
        dsimp only
        rw [hpa]
        exact Or.inl rfl
      · unfold EventGenerator.check_cross_chain_events
        dsimp only
        rw [hpa]
        cases ck with
        | error e => exact Or.inl rfl
        | ok trip =>
          obtain ⟨can, pl, no⟩ := trip
          cases can with
          | false => exact Or.inl rfl
          | true =>
            dsimp only
            rcases request_remote_execution_cases
                ⟨true, true, pa, Except.ok (true, pl, no), st, ct, ro, kk, cs⟩
                pair with ⟨e, hr⟩ | ⟨e, h, hr⟩ | ⟨h, hr⟩ <;> rw [hr]
            · exact Or.inl rfl
            · exact Or.inr (Or.inl ⟨h, rfl⟩)
            · dsimp only
              rcases hex : EventGenerator.extract_event_details kk pa (ro h)
                  h sc dc pl no pair with e | ev
              · exact Or.inr (Or.inl ⟨h, rfl⟩)
              · exact Or.inr (Or.inr ⟨h, ev, rfl⟩)

/-- C5: when the checker answers `canExec = false`, the per-pair check
submits no transaction and produces no `RelayEvent`; when it answers
`canExec = true`, at most one `requestRemoteExecution` transaction is
ever submitted, any produced `RelayEvent` comes strictly after that
single submission, and as soon as the chain accepts the submission the
count is exactly one. -/
theorem check_cross_chain_events_canExec_gating
    (env : EventGenerator.GenEnv) (sc dc : ChainConfig) (pair : RelayPair)
    (p : List Nat) (n : Nat) :
    (env.checker = .ok (false, p, n) →
      (EventGenerator.check_cross_chain_events env sc dc pair).2 = []) ∧
    (env.checker = .ok (true, p, n) →
      countSubmits (EventGenerator.check_cross_chain_events env sc dc pair).2 ≤ 1 ∧
      (∀ ev, EventGenerator.GenAction.emitEvent ev ∈
          (EventGenerator.check_cross_chain_events env sc dc pair).2 →
        ∃ h, (EventGenerator.check_cross_chain_events env sc dc pair).2 =
          [EventGenerator.GenAction.submitTx h,
           EventGenerator.GenAction.emitEvent ev]) ∧
      (∀ h, env.providerOk = true → env.walletOk = true →
        (env.parseAddr pair.source_resolver_address).isSome = true →
        env.sendTx = .ok h →
        countSubmits
          (EventGenerator.check_cross_chain_events env sc dc pair).2 = 1)) := by
  obtain ⟨po, wo, pa, ck, st, ct, ro, kk, cs⟩ := env
  constructor
  · intro hchk
    dsimp only at hchk
    subst hchk
    cases po with
    | false => rfl
    | true =>
      cases wo with
      | false => rfl
      | true =>
        rcases hpa : pa pair.source_resolver_address with _ | a
        · unfold EventGenerator.check_cross_chain_events
          dsimp only
          rw [hpa]
        · unfold EventGenerator.check_cross_chain_events
          dsimp only
          rw [hpa]
          rfl
  · intro hchk
    dsimp only at hchk
    subst hchk
    refine ⟨?_, ?_, ?_⟩
    · rcases check_cross_chain_events_trace_shape
          ⟨po, wo, pa, Except.ok (true, p, n), st, ct, ro, kk, cs⟩ sc dc
          pair with hsh | ⟨h, hsh⟩ | ⟨h, ev, hsh⟩ <;>
        rw [hsh] <;> simp [countSubmits, isSubmitAction]
    · intro ev hmem
      rcases check_cross_chain_events_trace_shape
          ⟨po, wo, pa, Except.ok (true, p, n), st, ct, ro, kk, cs⟩ sc dc
          pair with hsh | ⟨h, hsh⟩ | ⟨h, ev2, hsh⟩ <;> rw [hsh] at hmem
      · cases hmem
      · simp at hmem
      · simp at hmem
        subst hmem
        exact ⟨h, hsh⟩
    · intro h hP hW hA hS
      dsimp only at hP hW hA hS
      subst hP
      subst hW
      subst hS
      obtain ⟨a, ha⟩ := Option.isSome_iff_exists.mp hA
      have hsub := request_remote_execution_send_ok_submits
        ⟨true, true, pa, Except.ok (true, p, n), Except.ok h, ct, ro, kk, cs⟩
        pair h rfl rfl hA rfl
      rcases hr : EventGenerator.request_remote_execution
          ⟨true, true, pa, Except.ok (true, p, n), Except.ok h, ct, ro, kk,
           cs⟩ pair with ⟨r, acts⟩
      rw [hr] at hsub
      dsimp only at hsub
      subst hsub
      unfold EventGenerator.check_cross_chain_events
      dsimp only
      rw [ha]
      dsimp only
      rw [hr]
      cases r with
      | error e => rfl
      | ok txh =>
        dsimp only
        rcases hex : EventGenerator.extract_event_details kk pa (ro txh)
            txh sc dc p n pair with e | ev <;> rfl

/-- A generator environment in which every external step succeeds and
the checker reports an executable cross-chain request. -/
def sampleGenEnv : EventGenerator.GenEnv :=
  { providerOk := true
    walletOk := true
    parseAddr := fun _ => some 3
    checker := .ok (true, [1, 2, 3, 4], 7)
    sendTx := .ok 5
    confirmTx := .ok (some ())
    receiptOf := fun _ => .ok (some sampleReceipt)
    keccak := fun _ => [7]
    channelSend := fun _ => true }

/-- C5 witness: with `canExec = true` and an accepting chain, exactly
one submission happens at the concrete inputs. -/
theorem check_cross_chain_events_canExec_gating_witness :
    countSubmits
      (EventGenerator.check_cross_chain_events sampleGenEnv chainA chainB
        pairAB).2 = 1 :=
  ((check_cross_chain_events_canExec_gating sampleGenEnv chainA chainB pairAB
      [1, 2, 3, 4] 7).2 rfl).2.2 5 rfl rfl rfl rfl

/-- A relay pair whose source and destination are both `chainA`. -/
def pairAA : RelayPair :=
  { source_chain_id := 10
    source_resolver_address := "0xresolver"
    dest_chain_id := 10
    dest_dapp_address := "0xdapp" }

/-- A relay pair whose source chain id (2) is not configured. -/
def pairMissingChain : RelayPair :=
  { source_chain_id := 2
    source_resolver_address := "0xr2"
    dest_chain_id := 10
    dest_dapp_address := "0xd2" }

/-- A chain map containing only `chainA` (id 10). -/
def lookupOnlyChainA : Nat → Option ChainConfig := fun id =>
  if id = 10 then some chainA else none

/-- C7 counterexample: a pair whose source chain id is missing from the
chain map makes `check_all_chains` abort with an error before the
following, fully configured pair is checked at all. -/
theorem check_all_chains_missing_chain_skips_rest :
    EventGenerator.check_all_chains lookupOnlyChainA (fun _ _ _ => .ok ())
      [pairMissingChain, pairAA] =
      (.error "Source chain not found in config", []) := by
  decide

/-- C7 (amended): when every pair's source and destination chain ids are
in the chain map, every pair is checked in order — whatever errors the
per-pair checks return — and the tick ends without error. -/
theorem check_all_chains_isolates_pair_errors
    (lookup : Nat → Option ChainConfig)
    (check : ChainConfig → ChainConfig → RelayPair → Except String Unit) :
    ∀ pairs : List RelayPair,
      (∀ pr ∈ pairs, (lookup pr.source_chain_id).isSome = true ∧
        (lookup pr.dest_chain_id).isSome = true) →
      EventGenerator.check_all_chains lookup check pairs = (.ok (), pairs) := by
  intro pairs
  induction pairs with
  | nil => intro _; rfl
  | cons pr rest ih =>
    intro hcfg
    obtain ⟨hs, hd⟩ := hcfg pr (List.mem_cons_self pr rest)
    obtain ⟨sc, hsc⟩ := Option.isSome_iff_exists.mp hs
    obtain ⟨dc, hdc⟩ := Option.isSome_iff_exists.mp hd
    unfold EventGenerator.check_all_chains
    rw [hsc, hdc, ih (fun q hq => hcfg q (List.mem_cons_of_mem pr hq))]

/-- C7 amended witness: two configured pairs are both checked even when
every per-pair check errors. -/
theorem check_all_chains_isolates_pair_errors_witness :
    EventGenerator.check_all_chains (fun _ => some chainA)
      (fun _ _ _ => .error "boom") [pairAA, pairAB] =
      (.ok (), [pairAA, pairAB]) :=
  check_all_chains_isolates_pair_errors (fun _ => some chainA)
    (fun _ _ _ => .error "boom") [pairAA, pairAB]
    (by intro pr _; exact ⟨rfl, rfl⟩)

/-- `sampleGenEnv` with the downstream event channel closed (every send
fails). -/
def closedChannelGenEnv : EventGenerator.GenEnv :=
  { sampleGenEnv with channelSend := fun _ => false }

/-- The event the per-pair check emits in `closedChannelGenEnv`. -/
def closedChannelEmittedEvent : RelayEvent :=
  { source_chain := chainA
    source_resolver_address := "0xresolver"
    destination_chain := chainB
    dest_dapp_address := "0xdapp"
    exec_payload := [1, 2, 3, 4]
    nonce := 7
    meta := { tx_hash := some 5, block_number := 100, tx_index := 2,
              log_index := 1 } }

/-- C8 counterexample: with the event channel closed, the per-pair check
still completes with `Ok` — the failed send is merely logged — and the
generator's loop body continues; channel closure is not fatal to the
polling loop. -/
theorem generator_survives_closed_event_channel :
    EventGenerator.check_cross_chain_events closedChannelGenEnv chainA
      chainB pairAB =
      (.ok (), [EventGenerator.GenAction.submitTx 5,
                EventGenerator.GenAction.emitEvent
                  closedChannelEmittedEvent]) ∧
    EventGenerator.generatorLoopBody
      (EventGenerator.check_cross_chain_events closedChannelGenEnv chainA
        chainB pairAB).1 = EventGenerator.LoopControl.continueLoop :=
  ⟨rfl, rfl⟩

/-- C8 (amended): per-pair errors never terminate the generator's loop
(its body continues on every tick result), and closing the event channel
changes nothing about the per-pair check's outcome — so neither per-pair
errors nor channel closure can terminate the polling loop. -/
theorem generator_loop_never_breaks (r : Except String Unit)
    (env : EventGenerator.GenEnv) (sc dc : ChainConfig) (pair : RelayPair) :
    EventGenerator.generatorLoopBody r =
      EventGenerator.LoopControl.continueLoop ∧
    EventGenerator.check_cross_chain_events
        { env with channelSend := fun _ => false } sc dc pair =
      EventGenerator.check_cross_chain_events
        { env with channelSend := fun _ => true } sc dc pair := by
  constructor
  · cases r <;> rfl
  · rfl

/-- A delivery request like `sampleDelivery` but with a different
execution payload and the same proof. -/
def sampleDelivery2 : DeliveryRequest :=
  { sampleDelivery with
    event := { sampleEvent with exec_payload := [5, 6, 7, 8] } }

/-- C9 counterexample: no configuration-indexed strategy selection
describes `deliver_event` — under any configuration said to select the
fixed-function strategy, the submitted data would have to depend only on
the proof, but two deliveries with equal proofs and different payloads
yield different data. -/
theorem delivery_strategy_not_selected_by_config :
    ¬ strategySelectedByConfig := by
  rintro ⟨sel, abiAccept, ⟨k0, hk0⟩, -, hall⟩
  have h1 := hall sampleDeliveryEnv sampleDelivery k0
    ⟨20, 3, [1, 2, 3, 4, 9]⟩ rfl
  have h2 := hall sampleDeliveryEnv sampleDelivery2 k0
    ⟨20, 3, [5, 6, 7, 8, 9]⟩ rfl
  rw [hk0] at h1 h2
  simp only [specBuildTxData] at h1 h2
  have h3 : ([1, 2, 3, 4, 9] : List Nat) = [5, 6, 7, 8, 9] :=
    h1.trans h2.symm
  exact absurd h3 (by decide)

/-- C9 (amended): `deliver_event` always builds the transaction by the
payload-relay strategy of the two spec strategies; no fixed-function
variant or configuration switch exists in the code. -/
theorem deliver_event_always_payload_relay (env : DeliveryEnv)
    (d : DeliveryRequest) (pk : String) (sent : SentTx)
    (abiAccept : List Nat → List Nat)
    (h : (EventDeliverer.deliver_event env d pk).submitted = some sent) :
    sent.data = specBuildTxData abiAccept DeliveryStrategy.payloadRelay
      d.event.exec_payload d.proof := by
  have hd := (deliver_event_submitted_spec env d pk sent h).1
  simpa [specBuildTxData] using hd

/-- C9 amended witness: the payload-relay data at the sample delivery. -/
theorem deliver_event_always_payload_relay_witness :
    ([1, 2, 3, 4, 9] : List Nat) = specBuildTxData (fun _ => [])
      DeliveryStrategy.payloadRelay sampleDelivery.event.exec_payload
      sampleDelivery.proof :=
  deliver_event_always_payload_relay sampleDeliveryEnv sampleDelivery "key"
    ⟨20, 3, [1, 2, 3, 4, 9]⟩ (fun _ => []) (by decide)

example : base64Decode "" = .ok [] := rfl
example : base64Decode "AAAA" = .ok [0, 0, 0] := by decide
example : ProofApiClient.isReadyStatus "pending" = false := by decide
